import Mathlib

/-!
Verification development for `backup.py` (mariadb-s3-backup): a shallow
embedding of the pure decision logic of the script — database-name
filtering, dump-launch preconditions, and the S3 retention sweep — with
theorems about its behaviour.

Strings from the Python source are processed as `List Char`, with the
Python string operations (`split`, `rsplit`, `strip`, `endswith`)
re-implemented structurally so that concrete inputs evaluate.
-/

namespace MariadbS3Backup

/-- Python `s.split(sep)` for a one-character separator `sep`
(`"".split(sep) = [""]`, empty segments preserved). -/
def splitOnChar (sep : Char) : List Char → List (List Char)
  | [] => [[]]
  | c :: cs =>
    let r := splitOnChar sep cs
    if c = sep then [] :: r
    else
      match r with
      | [] => [[c]]
      | h :: t => (c :: h) :: t

/-- Python `s.strip()`: remove leading and trailing whitespace. -/
def pyStrip (cs : List Char) : List Char :=
  ((cs.dropWhile Char.isWhitespace).reverse.dropWhile Char.isWhitespace).reverse

/-- Python `s.endswith(".sql")` (backup.py:142). -/
def endsWithSql (cs : List Char) : Bool :=
  List.isSuffixOf ['.', 's', 'q', 'l'] cs

/-- Python `base_name.rsplit('-', 2)` (backup.py:147): split from the right
on `-`, at most 2 splits, so at most 3 parts. -/
def pyRsplitDash2 (cs : List Char) : List (List Char) :=
  let parts := splitOnChar '-' cs
  if parts.length ≤ 3 then parts
  else List.intercalate ['-'] (parts.take (parts.length - 2)) :: parts.drop (parts.length - 2)

/-- Constant `SYSTEM_DATABASES` (backup.py:15-20). -/
def SYSTEM_DATABASES : List String :=
  ["information_schema", "performance_schema", "mysql", "sys"]

/-- The list comprehension at backup.py:61:
`[db for db in all_dbs if db not in SYSTEM_DATABASES]`. -/
def filter_user_dbs (all_dbs : List String) : List String :=
  all_dbs.filter fun db => decide (db ∉ SYSTEM_DATABASES)

/-- Function `get_user_databases` (backup.py:36-62), from the successful query's
stdout onward: `all_dbs = result.stdout.strip().split("\n")`, then the
system-database filter. The subprocess call itself is not modelled; this
is the pure post-processing of its stdout. -/
def get_user_databases (stdout : String) : List String :=
  let all_dbs := (splitOnChar '\n' (pyStrip stdout.data)).map fun cs => String.mk cs
  filter_user_dbs all_dbs

/-- Numeric value of a digit character. -/
def digitVal (c : Char) : Nat :=
  c.toNat - 48

/-- Gregorian leap-year rule, as used by Python `datetime`. -/
def isLeapYear (y : Nat) : Bool :=
  (y % 4 == 0 && y % 100 != 0) || y % 400 == 0

/-- Days in a month, as validated by the Python `datetime` constructor. -/
def daysInMonth (y m : Nat) : Nat :=
  if m == 2 then (if isLeapYear y then 29 else 28)
  else if m == 4 || m == 6 || m == 9 || m == 11 then 30
  else 31

/-- Encode a date-time as a `Nat` whose numeric order is the
chronological order: `YYYYMMDDHHMMSS` as a decimal number. -/
def encodeTs (y mo d hh mi ss : Nat) : Nat :=
  ((((y * 100 + mo) * 100 + d) * 100 + hh) * 100 + mi) * 100 + ss

/-!
CPython compiles the format `"%Y%m%d-%H%M%S"` (Lib/_strptime.py) to the
regular expression

  `(?P<Y>\d\d\d\d)(?P<m>1[0-2]|0[1-9]|[1-9])(?P<d>3[01]|[12]\d|0[1-9]|[1-9])`
  `\-(?P<H>2[0-3]|[0-1]\d|\d)(?P<M>[0-5]\d|\d)(?P<S>6[0-1]|[0-5]\d|\d)`

and matches it at the start of the string with ordered-alternation
backtracking; numeric fields are variable width. Each `alts…` function
below lists one field's candidate matches as `(value, remaining input)`
pairs, in the regex's alternation order; `matchTsRegex` chains them with
`List.findSome?`, which is exactly leftmost-preference backtracking, and
returns the first complete match together with the unconsumed input.
-/

/-- Regex `\d\d\d\d` (field `%Y`). -/
def altsYear : List Char → List (Nat × List Char)
  | c1 :: c2 :: c3 :: c4 :: rest =>
    if c1.isDigit ∧ c2.isDigit ∧ c3.isDigit ∧ c4.isDigit then
      [(((digitVal c1 * 10 + digitVal c2) * 10 + digitVal c3) * 10 + digitVal c4, rest)]
    else []
  | _ => []

/-- Regex `1[0-2]|0[1-9]|[1-9]` (field `%m`). -/
def altsMonth : List Char → List (Nat × List Char)
  | c1 :: c2 :: rest =>
    (if c1 = '1' ∧ '0' ≤ c2 ∧ c2 ≤ '2' then [(10 + digitVal c2, rest)] else []) ++
    (if c1 = '0' ∧ '1' ≤ c2 ∧ c2 ≤ '9' then [(digitVal c2, rest)] else []) ++
    (if '1' ≤ c1 ∧ c1 ≤ '9' then [(digitVal c1, c2 :: rest)] else [])
  | [c1] => if '1' ≤ c1 ∧ c1 ≤ '9' then [(digitVal c1, [])] else []
  | [] => []

/-- Regex `3[01]|[12]\d|0[1-9]|[1-9]` (field `%d`). -/
def altsDay : List Char → List (Nat × List Char)
  | c1 :: c2 :: rest =>
    (if c1 = '3' ∧ '0' ≤ c2 ∧ c2 ≤ '1' then [(30 + digitVal c2, rest)] else []) ++
    (if ('1' ≤ c1 ∧ c1 ≤ '2') ∧ c2.isDigit then [(10 * digitVal c1 + digitVal c2, rest)] else []) ++
    (if c1 = '0' ∧ '1' ≤ c2 ∧ c2 ≤ '9' then [(digitVal c2, rest)] else []) ++
    (if '1' ≤ c1 ∧ c1 ≤ '9' then [(digitVal c1, c2 :: rest)] else [])
  | [c1] => if '1' ≤ c1 ∧ c1 ≤ '9' then [(digitVal c1, [])] else []
  | [] => []

/-- Regex `2[0-3]|[0-1]\d|\d` (field `%H`). -/
def altsHour : List Char → List (Nat × List Char)
  | c1 :: c2 :: rest =>
    (if c1 = '2' ∧ '0' ≤ c2 ∧ c2 ≤ '3' then [(20 + digitVal c2, rest)] else []) ++
    (if ('0' ≤ c1 ∧ c1 ≤ '1') ∧ c2.isDigit then [(10 * digitVal c1 + digitVal c2, rest)] else []) ++
    (if c1.isDigit then [(digitVal c1, c2 :: rest)] else [])
  | [c1] => if c1.isDigit then [(digitVal c1, [])] else []
  | [] => []

/-- Regex `[0-5]\d|\d` (field `%M`). -/
def altsMinute : List Char → List (Nat × List Char)
  | c1 :: c2 :: rest =>
    (if ('0' ≤ c1 ∧ c1 ≤ '5') ∧ c2.isDigit then [(10 * digitVal c1 + digitVal c2, rest)] else []) ++
    (if c1.isDigit then [(digitVal c1, c2 :: rest)] else [])
  | [c1] => if c1.isDigit then [(digitVal c1, [])] else []
  | [] => []

/-- Regex `6[0-1]|[0-5]\d|\d` (field `%S`; the regex admits leap
seconds, which the `datetime` constructor then rejects). -/
def altsSecond : List Char → List (Nat × List Char)
  | c1 :: c2 :: rest =>
    (if c1 = '6' ∧ '0' ≤ c2 ∧ c2 ≤ '1' then [(60 + digitVal c2, rest)] else []) ++
    (if ('0' ≤ c1 ∧ c1 ≤ '5') ∧ c2.isDigit then [(10 * digitVal c1 + digitVal c2, rest)] else []) ++
    (if c1.isDigit then [(digitVal c1, c2 :: rest)] else [])
  | [c1] => if c1.isDigit then [(digitVal c1, [])] else []
  | [] => []

/-- Backtracking match of the compiled `"%Y%m%d-%H%M%S"` regex at the
start of the input: the first complete match in alternation order,
with the captured fields `(Y, m, d, H, M, S)` and the unconsumed
remainder of the input. `none` when no prefix matches. -/
def matchTsRegex (cs : List Char) : Option ((Nat × Nat × Nat × Nat × Nat × Nat) × List Char) :=
  (altsYear cs).findSome? fun (y, r1) =>
  (altsMonth r1).findSome? fun (mo, r2) =>
  (altsDay r2).findSome? fun (d, r3) =>
  (match r3 with
    | '-' :: r4 => some r4
    | _ => none).bind fun r4 =>
  (altsHour r4).findSome? fun (hh, r5) =>
  (altsMinute r5).findSome? fun (mi, r6) =>
  (altsSecond r6).findSome? fun (ss, r7) =>
  some ((y, mo, d, hh, mi, ss), r7)

/-- Python `datetime.strptime(ts_str, "%Y%m%d-%H%M%S")` (backup.py:148):
match the compiled regex (`matchTsRegex`), fail if unconverted data
remains, then build the `datetime`, which validates year ≥ 1, the day
against the month's length, and second ≤ 59 (month, hour and minute are
already constrained by the regex). Returns the encoded timestamp, or
`none` when any step raises (the Python code catches the exception and
skips the object). -/
def parseTimestamp (cs : List Char) : Option Nat :=
  match matchTsRegex cs with
  | none => none
  | some ((y, mo, d, hh, mi, ss), rest) =>
    if rest.isEmpty then
      if 1 ≤ y ∧ d ≤ daysInMonth y mo ∧ ss ≤ 59 then
        some (encodeTs y mo d hh mi ss)
      else none
    else none

/-- The `try` block at backup.py:145-150: strip the `.sql` suffix, take
the last two `-`-delimited segments (`rsplit('-', 2)[1]` and `[2]` —
`none` models the caught `IndexError` when fewer than three parts
exist), rejoin them with `-`, and parse. -/
def keyTimestamp (key : String) : Option Nat :=
  let base_name := key.data.take (key.data.length - 4)
  let parts := pyRsplitDash2 base_name
  match parts.get? 1, parts.get? 2 with
  | some a, some b => parseTimestamp (a ++ '-' :: b)
  | _, _ => none

/-- The per-object decision of the sweep loop body (backup.py:140-154):
an object is deleted iff its key ends in `.sql`, its embedded timestamp
parses, and that timestamp is strictly earlier than the cutoff. -/
def shouldDelete (cutoff : Nat) (key : String) : Bool :=
  if !(endsWithSql key.data) then false
  else
    match keyTimestamp key with
    | none => false
    | some t => decide (t < cutoff)

/-- One entry of a `list_objects_v2` `Contents` array. The code reads
only `obj["Key"]` (backup.py:141); `size` and `lastModified` stand for
the storage-provider metadata the code never consults. -/
structure S3Object where
  key : String
  size : Nat
  lastModified : Nat
deriving DecidableEq

/-- The keys deleted while processing one page's `Contents`
(backup.py:140-154), in listing order. -/
def pageDeletedKeys (cutoff : Nat) (page : List S3Object) : List String :=
  (page.filter fun o => shouldDelete cutoff o.key).map S3Object.key

/-- Function `cleanup_old_backups` (backup.py:108-159). The S3 backend is
modelled by the sequence of responses its pagination yields: `pages`
lists each response's `Contents` in order; a response carries a
`Contents` field iff its page is non-empty, and `IsTruncated` iff later
pages remain. The cutoff (`utcnow() - timedelta(days=retention_days)`,
backup.py:120-121) is passed in encoded form. Result: the keys deleted,
in order, paired with the Python function's return value — the body has
no `return` statement, so it always returns `None` (`none`). -/
def cleanup_old_backups (cutoff : Nat) : List (List S3Object) → List String × Option Nat
  | [] => ([], none)
  | page :: rest =>
    if page.isEmpty then ([], none)
    else if rest.isEmpty then (pageDeletedKeys cutoff page, none)
    else
      let r := cleanup_old_backups cutoff rest
      (pageDeletedKeys cutoff page ++ r.1, none)

/-- The observable effects of `dump_databases`, in program order. -/
inductive DumpEffect where
  | openFile (path : String)
  | spawn (cmd : List String)
deriving DecidableEq

/-- Function `dump_databases` (backup.py:64-79): raises `ValueError` on an empty
selection before touching anything; otherwise opens the dump file and
runs `mysqldump`. Result: the effects performed, paired with the raised
error message if any. -/
def dump_databases (user socket : String) (db_list : List String) (dump_file : String) :
    List DumpEffect × Option String :=
  if db_list.isEmpty then
    ([], some "No user databases found. Nothing to dump.")
  else
    ([DumpEffect.openFile dump_file,
      DumpEffect.spawn (["mysqldump", "-u" ++ user, "-S" ++ socket, "--databases"] ++ db_list)],
     none)

/-- The four pipeline stages named by the specification. -/
inductive Stage where
  | inventory
  | dump
  | upload
  | sweep
deriving DecidableEq

/-- The stages `main` (backup.py:161-188) executes once the database
listing has succeeded, as a function of the returned user-database
list. After the inventory (backup.py:181), an empty list takes the
early exit (backup.py:182-184); a non-empty list reaches the bare
`return` at backup.py:188, so the `dump_databases`, `upload_to_s3` and
`cleanup_old_backups` calls at backup.py:190-225 are unreachable in
both cases. -/
def main_stages (user_databases : List String) : List Stage :=
  if user_databases.isEmpty then
    [Stage.inventory]
  else
    [Stage.inventory]

/-! ### Helper lemmas -/

theorem pageDeletedKeys_append (cutoff : Nat) (a b : List S3Object) :
    pageDeletedKeys cutoff (a ++ b) = pageDeletedKeys cutoff a ++ pageDeletedKeys cutoff b := by
  simp [pageDeletedKeys, List.filter_append]

/-- Over a pagination whose pages are all non-empty (as `list_objects_v2`
responses are), the sweep deletes exactly the eligible objects of the
concatenation of all pages, in order. -/
theorem cleanup_deleted_join (cutoff : Nat) :
    ∀ pages : List (List S3Object), (∀ p ∈ pages, p ≠ []) →
      (cleanup_old_backups cutoff pages).1 = pageDeletedKeys cutoff pages.flatten
  | [], _ => by simp [cleanup_old_backups, pageDeletedKeys]
  | page :: rest, h => by
    have hp : page ≠ [] := h page (by simp)
    have hrest : ∀ q ∈ rest, q ≠ [] := fun q hq => h q (List.mem_cons_of_mem _ hq)
    have ih := cleanup_deleted_join cutoff rest hrest
    unfold cleanup_old_backups
    rcases hr : rest with _ | ⟨q, rest₂⟩
    · simp [hp, pageDeletedKeys]
    · rw [← hr]
      have hrne : rest.isEmpty = false := by rw [hr]; rfl
      simp [hp, hrne, ih, pageDeletedKeys_append]

end MariadbS3Backup

namespace MariadbS3Backup

/-! ### Claim theorems -/

/-- Claim C1: the claim says that on a non-empty user-database list the four
stages (inventory, dump, upload, sweep) all run; in the code, `main`
hits the bare `return` at backup.py:188 right after printing the found
databases, so only the inventory stage ever executes. Evaluated here at
the failing input `["mydb"]`. -/
theorem main_stops_after_inventory :
    main_stages ["mydb"] = [Stage.inventory] ∧
    Stage.dump ∉ main_stages ["mydb"] ∧
    Stage.upload ∉ main_stages ["mydb"] ∧
    Stage.sweep ∉ main_stages ["mydb"] := by
  decide

/-- Claim C2 counterexample: the claim says the sweep returns the count of
deleted objects; on a listing where it deletes one object, the Python
function's return value is `None`, not `1`. -/
theorem cleanup_count_counterexample :
    (cleanup_old_backups 20261005000000 [[⟨"backup-20230101-000000.sql", 10, 0⟩]]).2 ≠
      some (cleanup_old_backups 20261005000000
        [[⟨"backup-20230101-000000.sql", 10, 0⟩]]).1.length := by
  decide

/-- Claim C2 amended: for every cutoff and listing, the sweep deletes the
eligible objects but returns `None` — it reports no count. -/
theorem cleanup_returns_none (cutoff : Nat) :
    ∀ pages : List (List S3Object), (cleanup_old_backups cutoff pages).2 = none
  | [] => rfl
  | page :: rest => by
    unfold cleanup_old_backups
    by_cases h1 : page.isEmpty <;> by_cases h2 : rest.isEmpty <;> simp [h1, h2]

/-- Claim C3: the system-database filter at backup.py:61 removes exactly the
four reserved names: no reserved name survives, every non-reserved name
keeps its exact multiplicity, and the output is a sublist of the input
(input order preserved). -/
theorem filter_user_dbs_spec (all_dbs : List String) :
    (∀ db ∈ filter_user_dbs all_dbs, db ∉ SYSTEM_DATABASES) ∧
    (∀ name, name ∉ SYSTEM_DATABASES →
      (filter_user_dbs all_dbs).count name = all_dbs.count name) ∧
    (filter_user_dbs all_dbs).Sublist all_dbs := by
  unfold filter_user_dbs
  refine ⟨?_, ?_, List.filter_sublist _⟩
  · intro db hdb
    exact of_decide_eq_true (List.mem_filter.mp hdb).2
  · intro name hname
    exact List.count_filter (decide_eq_true hname)

/-- Claim C3 witness at a concrete listing. -/
theorem filter_user_dbs_spec_witness :
    ("shop" ∉ SYSTEM_DATABASES) ∧
    (filter_user_dbs ["shop", "mysql", "blog", "shop"]).count "shop" =
      List.count "shop" ["shop", "mysql", "blog", "shop"] :=
  ⟨by decide, (filter_user_dbs_spec ["shop", "mysql", "blog", "shop"]).2.1 "shop" (by decide)⟩

/-- Claim C4: `dump_databases` with an empty database list raises
`ValueError` having performed no effect: no file is opened and no
process is spawned (backup.py:68-69 precede the `open` and
`subprocess.run` calls). -/
theorem dump_databases_empty_selection (user socket dump_file : String) :
    dump_databases user socket [] dump_file =
      ([], some "No user databases found. Nothing to dump.") :=
  rfl

/-- Claim C10: when the database-listing query succeeds with empty stdout,
`"".strip().split("\n")` is `[""]`, the empty string is not a system
database, so `get_user_databases` returns `[""]` — a non-empty list, so
`main`'s emptiness early-exit (backup.py:182) is not triggered. -/
theorem get_user_databases_empty_stdout :
    get_user_databases "" = [""] ∧ (get_user_databases "").isEmpty = false := by
  decide

/-- Claim C8: idempotence. If a second sweep with the same cutoff runs over
the objects that survived a first sweep (those whose key is not among
the first run's deleted keys), under any repagination into non-empty
pages, it deletes nothing. -/
theorem sweep_idempotent (cutoff : Nat) (pages₁ pages₂ : List (List S3Object))
    (h₁ : ∀ p ∈ pages₁, p ≠ []) (h₂ : ∀ p ∈ pages₂, p ≠ [])
    (hrem : pages₂.flatten =
      pages₁.flatten.filter fun o => !((cleanup_old_backups cutoff pages₁).1.contains o.key)) :
    (cleanup_old_backups cutoff pages₂).1 = [] := by
  rw [cleanup_deleted_join cutoff pages₂ h₂]
  suffices hf : pages₂.flatten.filter (fun o => shouldDelete cutoff o.key) = [] by
    simp [pageDeletedKeys, hf]
  rw [List.filter_eq_nil_iff]
  intro o ho hsd
  rw [hrem] at ho
  obtain ⟨ho1, hno⟩ := List.mem_filter.mp ho
  have hdel : o.key ∈ (cleanup_old_backups cutoff pages₁).1 := by
    rw [cleanup_deleted_join cutoff pages₁ h₁]
    unfold pageDeletedKeys
    exact List.mem_map_of_mem _ (List.mem_filter.mpr ⟨ho1, hsd⟩)
  simp at hno
  exact hno hdel

/-- Claim C8 witness: first run over {old, future} deletes the old key; the
second run over the surviving future key deletes nothing. -/
theorem sweep_idempotent_witness :
    (cleanup_old_backups 20261005000000 [[⟨"backup-20990101-000000.sql", 10, 0⟩]]).1 = [] :=
  sweep_idempotent 20261005000000
    [[⟨"backup-20230101-000000.sql", 10, 0⟩, ⟨"backup-20990101-000000.sql", 10, 0⟩]]
    [[⟨"backup-20990101-000000.sql", 10, 0⟩]]
    (by decide) (by decide) (by decide)

theorem pageDeletedKeys_congr (cutoff : Nat) :
    ∀ l₁ l₂ : List S3Object, l₁.map S3Object.key = l₂.map S3Object.key →
      pageDeletedKeys cutoff l₁ = pageDeletedKeys cutoff l₂
  | [], [], _ => rfl
  | [], _ :: _, h => by simp at h
  | _ :: _, [], h => by simp at h
  | a :: t₁, b :: t₂, h => by
    simp only [List.map_cons, List.cons.injEq] at h
    obtain ⟨hk, ht⟩ := h
    have ih := pageDeletedKeys_congr cutoff t₁ t₂ ht
    simp only [pageDeletedKeys, List.filter_cons] at ih ⊢
    rw [hk]
    cases shouldDelete cutoff b.key <;> simp [ih, hk]

/-- Claim C9: the deletion decision reads only the object's key and the
cutoff, never provider metadata: two listings with identical keys page
by page, but arbitrary sizes and modification times, produce identical
deletions. -/
theorem sweep_metadata_independent (cutoff : Nat) :
    ∀ pages₁ pages₂ : List (List S3Object),
      pages₁.map (List.map S3Object.key) = pages₂.map (List.map S3Object.key) →
      (cleanup_old_backups cutoff pages₁).1 = (cleanup_old_backups cutoff pages₂).1
  | [], [], _ => rfl
  | [], _ :: _, h => by simp at h
  | _ :: _, [], h => by simp at h
  | p :: r₁, q :: r₂, h => by
    simp only [List.map_cons, List.cons.injEq] at h
    obtain ⟨hpq, hr⟩ := h
    have ih := sweep_metadata_independent cutoff r₁ r₂ hr
    have hpe : p.isEmpty = q.isEmpty := by
      cases p <;> cases q <;> simp_all
    have hre : r₁.isEmpty = r₂.isEmpty := by
      cases r₁ <;> cases r₂ <;> simp_all
    have hpd := pageDeletedKeys_congr cutoff p q hpq
    by_cases hq : q.isEmpty
    · simp [cleanup_old_backups, hpe, hq]
    · by_cases hr2 : r₂.isEmpty
      · simp [cleanup_old_backups, hpe, hq, hre, hr2, hpd]
      · simp [cleanup_old_backups, hpe, hq, hre, hr2, hpd, ih]

/-- Claim C9 witness: same key, different size and modification time. -/
theorem sweep_metadata_independent_witness :
    (cleanup_old_backups 20261005000000 [[⟨"backup-20230101-000000.sql", 10, 111⟩]]).1 =
    (cleanup_old_backups 20261005000000 [[⟨"backup-20230101-000000.sql", 999, 222⟩]]).1 :=
  sweep_metadata_independent 20261005000000
    [[⟨"backup-20230101-000000.sql", 10, 111⟩]]
    [[⟨"backup-20230101-000000.sql", 999, 222⟩]] (by decide)

end MariadbS3Backup
